import Mathlib

/-
  Verification development for the boxercrab MySQL binlog event decoder.

  Shallow embedding of src/src/utils.rs and src/src/events/mod.rs.

  Modelling conventions:
  * A byte buffer is a `List Nat` (each element a byte value 0..255); the
    decoders advance the list exactly as the Rust code advances its slice.
  * Rust `IResult<&[u8], T>` becomes `POut T`: either `ok value rest`
    (the nom success case, with the unconsumed remainder), `err e`
    (a nom `Err::Error`, classified by the spec's error taxonomy), or
    `panic` (a Rust process abort: `unreachable!()`, a failed `assert!`,
    an out-of-bounds index, or debug-build integer over/underflow).
  * Machine integers are `Nat`; every place where the Rust code performs
    unsigned subtraction (which panics on underflow in debug builds) is
    modelled with a checked subtraction that yields `panic` on underflow,
    and u8/u32 additions that can overflow are likewise checked.
  * Rust `String` results are kept as raw byte lists (UTF-8 validity and
    lossy decoding are not modelled; no claim depends on text content).
-/

/-- Error taxonomy of the spec (section 7), plus nom's zero-progress
`many0` guard which has no name in the spec. -/
inductive PErr where
  | insufficientData
  | malformedLength
  | unsupportedEventType
  | unsupportedEnumValue
  | invariantViolation
  | many0NoProgress
  deriving Repr, DecidableEq

abbrev Bytes := List Nat

/-- Outcome of running a decoder on a buffer: nom success with the
remaining bytes, a nom error, or a Rust panic. -/
inductive POut (α : Type) where
  | ok    : α → Bytes → POut α
  | err   : PErr → POut α
  | panic : POut α
  deriving Repr

/-- A decoder, as in the Rust source: a function from the input slice to
an outcome carrying the unconsumed remainder. -/
def Parser (α : Type) : Type := Bytes → POut α

def Parser.pure (a : α) : Parser α := fun i => POut.ok a i

def Parser.bind (p : Parser α) (f : α → Parser β) : Parser β := fun i =>
  match p i with
  | POut.ok a r => f a r
  | POut.err e => POut.err e
  | POut.panic => POut.panic

instance : Monad Parser where
  pure := Parser.pure
  bind := Parser.bind

theorem bind_def (p : Parser α) (f : α → Parser β) :
    p >>= f = Parser.bind p f := rfl

def perr (e : PErr) : Parser α := fun _ => POut.err e

def ppanic : Parser α := fun _ => POut.panic

/-- Split off the first `n` bytes of a buffer; `none` when fewer than `n`
bytes remain. -/
def splitN : Nat → Bytes → Option (Bytes × Bytes)
  | 0, i => some ([], i)
  | _ + 1, [] => none
  | n + 1, b :: i =>
    match splitN n i with
    | some (x, r) => some (b :: x, r)
    | none => none

/-- Little-endian value of a byte list. -/
def leVal : Bytes → Nat
  | [] => 0
  | b :: r => b + 256 * leVal r

/-- nom's `take(n)`: `n` bytes, or `Err` (InsufficientData) when the
buffer is shorter. -/
def takeN (n : Nat) : Parser Bytes := fun i =>
  match splitN n i with
  | some (x, r) => POut.ok x r
  | none => POut.err PErr.insufficientData

/-- nom's fixed-width little-endian integer readers (`le_u8`, `le_u16`,
`le_u32`, `le_u64`), uniformly: read `n` bytes, little-endian. -/
def readLE (n : Nat) : Parser Nat := fun i =>
  match splitN n i with
  | some (x, r) => POut.ok (leVal x) r
  | none => POut.err PErr.insufficientData

/-- nom's `le_i64`: 8 bytes little-endian, two's-complement signed. -/
def readLEi64 : Parser Int := do
  let v ← readLE 8
  Parser.pure (if v < 2 ^ 63 then (v : Int) else (v : Int) - 2 ^ 64)

/-- Rust debug-build checked subtraction: `a - b` panics on underflow. -/
def csub (a b : Nat) : Option Nat := if b ≤ a then some (a - b) else none

/-- Lift a checked arithmetic result into a parser; `none` is the Rust
debug-build arithmetic panic. -/
def liftArith (o : Option Nat) : Parser Nat := fun i =>
  match o with
  | some n => POut.ok n i
  | none => POut.panic

/-- src/src/utils.rs `parse_lenenc_int` (lines 9-32).
`match input[0]` indexes the slice unconditionally, so the empty buffer
is an out-of-bounds panic; the `0xff` arm is `unreachable!()`. -/
def parse_lenenc_int : Parser Nat := fun input =>
  match input with
  | [] => POut.panic
  | b :: _ =>
    if b < 0xfb then
      (readLE 1) input
    else if b = 0xfb ∨ b = 0xfc then
      (Parser.bind (takeN 1) (fun _ => readLE 2)) input
    else if b = 0xfd then
      (Parser.bind (takeN 1) (fun _ =>
        Parser.bind (takeN 3) (fun s =>
          Parser.pure (leVal (s ++ [0]))))) input
    else if b = 0xfe then
      (Parser.bind (takeN 1) (fun _ => readLE 8)) input
    else
      POut.panic

/-- Modelled from the spec: `utils::lenenc_int` is imported by
src/src/events/mod.rs but its definition is not under src/.  Spec
section 4.1 describes it: `lenenc_int(buf) -> (consumed, value)`; first
byte below `0xfb` is the value itself (1 byte), `0xfb`/`0xfc` read the
next 2 bytes little-endian (3 consumed), `0xfd` the next 3 bytes
(4 consumed), `0xfe` the next 8 bytes (9 consumed), `0xff` fails with
`MalformedLength`, and short buffers fail with `InsufficientData`. -/
def lenenc_int : Parser (Nat × Nat) := fun input =>
  match input with
  | [] => POut.err PErr.insufficientData
  | b :: rest =>
    if b < 0xfb then POut.ok (1, b) rest
    else if b = 0xfb ∨ b = 0xfc then
      (Parser.bind (readLE 2) (fun v => Parser.pure (3, v))) rest
    else if b = 0xfd then
      (Parser.bind (readLE 3) (fun v => Parser.pure (4, v))) rest
    else if b = 0xfe then
      (Parser.bind (readLE 8) (fun v => Parser.pure (9, v))) rest
    else POut.err PErr.malformedLength

/-- Modelled from the spec: `utils::extract_string` is not under src/.
Spec section 4 describes string fields as text read up to a NUL
terminator; the text is kept as raw bytes here. -/
def extract_string (s : Bytes) : Bytes := s.takeWhile (fun b => b ≠ 0)

/-- Modelled from the spec: `utils::extract_n_string` is not under src/;
like `extract_string` restricted to the first `n` bytes. -/
def extract_n_string (s : Bytes) (n : Nat) : Bytes :=
  (s.take n).takeWhile (fun b => b ≠ 0)

/-- Modelled from the spec: `utils::string_fixed` is not under src/.
Spec section 4.1: reads a 1-byte length then that many bytes as text
(the caller checks the following NUL terminator separately). -/
def string_fixed : Parser (Nat × Bytes) := do
  let len ← readLE 1
  let s ← takeN len
  Parser.pure (len, extract_string s)

/-- Modelled from the spec: `utils::take_till_term_string` is not under
src/.  Reads bytes up to and including a NUL terminator and returns the
text before it; with no terminator in the buffer the read fails. -/
def take_till_term_string : Parser Bytes := fun i =>
  match i with
  | [] => POut.err PErr.insufficientData
  | b :: rest =>
    if b = 0 then POut.ok [] rest
    else
      match take_till_term_string rest with
      | POut.ok s r => POut.ok (b :: s) r
      | POut.err e => POut.err e
      | POut.panic => POut.panic

/-- nom's `many0` with explicit fuel: repeat the parser until it errors;
a success that consumes nothing is nom's `Many0` error (its
infinite-loop guard); a panic propagates. -/
def many0F (p : Parser α) : Nat → Parser (List α)
  | 0 => perr PErr.many0NoProgress
  | fuel + 1 => fun i =>
    match p i with
    | POut.err _ => POut.ok [] i
    | POut.panic => POut.panic
    | POut.ok a r =>
      if r.length < i.length then
        match many0F p fuel r with
        | POut.ok as r2 => POut.ok (a :: as) r2
        | POut.err e => POut.err e
        | POut.panic => POut.panic
      else POut.err PErr.many0NoProgress

/-- nom's `many0`: fuel bounded by the buffer length, which suffices
because every iteration must consume at least one byte. -/
def many0 (p : Parser α) : Parser (List α) := fun i => many0F p (i.length + 1) i

/-- nom's `many1`: one mandatory application then `many0`. -/
def many1 (p : Parser α) : Parser (List α) := do
  let a ← p
  let as ← many0 p
  Parser.pure (a :: as)

/-- nom's `many_m_n(n, n, p)` as used by the source: exactly `n`
applications. -/
def manyN (p : Parser α) : Nat → Parser (List α)
  | 0 => Parser.pure []
  | n + 1 => do
    let a ← p
    let as ← manyN p n
    Parser.pure (a :: as)

/-- src/src/events/mod.rs `EventFlag` (lines 17-29). -/
structure EventFlag where
  in_use : Bool
  forced_rotate : Bool
  thread_specific : Bool
  suppress_use : Bool
  update_table_map_version : Bool
  artificial : Bool
  relay_log : Bool
  ignorable : Bool
  no_filter : Bool
  mts_isolate : Bool
  deriving Repr, DecidableEq

/-- src/src/events/mod.rs `Header` (lines 31-39). -/
structure Header where
  timestamp : Nat
  event_type : Nat
  server_id : Nat
  event_size : Nat
  log_pos : Nat
  flags : EventFlag
  deriving Repr, DecidableEq

/-- The flag-word decode of `parse_header` (mod.rs lines 47-58): bit `i`
of the little-endian u16, bits 10 and above ignored. -/
def eventFlagOfWord (f : Nat) : EventFlag :=
  { in_use := (f >>> 0) % 2 == 1
    forced_rotate := (f >>> 1) % 2 == 1
    thread_specific := (f >>> 2) % 2 == 1
    suppress_use := (f >>> 3) % 2 == 1
    update_table_map_version := (f >>> 4) % 2 == 1
    artificial := (f >>> 5) % 2 == 1
    relay_log := (f >>> 6) % 2 == 1
    ignorable := (f >>> 7) % 2 == 1
    no_filter := (f >>> 8) % 2 == 1
    mts_isolate := (f >>> 9) % 2 == 1 }

/-- src/src/events/mod.rs `parse_header` (lines 41-70): five fixed-width
little-endian fields then the 16-bit flag word.  No field value is
validated. -/
def parse_header : Parser Header := do
  let timestamp ← readLE 4
  let event_type ← readLE 1
  let server_id ← readLE 4
  let event_size ← readLE 4
  let log_pos ← readLE 4
  let flagWord ← readLE 2
  Parser.pure
    { timestamp := timestamp
      event_type := event_type
      server_id := server_id
      event_size := event_size
      log_pos := log_pos
      flags := eventFlagOfWord flagWord }

/-- src/src/events/mod.rs `IntVarEventType` (lines 384-389). -/
inductive IntVarEventType where
  | InvalidIntEvent
  | LastInsertIdEvent
  | InsertIdEvent
  deriving Repr, DecidableEq

/-- src/src/events/mod.rs `EmptyFlags` (lines 391-398). -/
structure EmptyFlags where
  field_term_empty : Bool
  enclosed_empty : Bool
  line_term_empty : Bool
  line_start_empty : Bool
  escape_empty : Bool
  deriving Repr, DecidableEq

/-- src/src/events/mod.rs `OptFlags` (lines 400-406). -/
structure OptFlags where
  dump_file : Bool
  opt_enclosed : Bool
  replace : Bool
  ignore : Bool
  deriving Repr, DecidableEq

/-- src/src/events/mod.rs `DupHandlingFlags` (lines 408-413). -/
inductive DupHandlingFlags where
  | Error
  | Ignore
  | Replace
  deriving Repr, DecidableEq

/-- src/src/events/mod.rs `IncidentEventType` (lines 415-419). -/
inductive IncidentEventType where
  | None
  | LostEvents
  deriving Repr, DecidableEq

/-- Modelled from the spec: `rows::Flags` lives in the missing
src/src/events/rows.rs; its four fields and their wire decode appear
verbatim in `parse_half_row` (mod.rs lines 963-968) and in spec
section 3. -/
structure RowsFlags where
  end_of_stmt : Bool
  foreign_key_checks : Bool
  unique_key_checks : Bool
  has_columns : Bool
  deriving Repr, DecidableEq

/-- Modelled from the spec: `rows::ExtraData` lives in the missing
src/src/events/rows.rs; the spec (section 3) describes only "a tagged
chain of auxiliary records", so one record is kept as a tag byte plus a
length-prefixed raw payload. -/
structure ExtraData where
  d_type : Nat
  data : Bytes
  deriving Repr, DecidableEq

/-- Modelled from the spec: `rows::parse_extra_data` is not under src/.
One tagged record: a 1-byte type tag, a 1-byte payload length, then the
payload bytes. -/
def parse_extra_data : Parser ExtraData := do
  let t ← readLE 1
  let len ← readLE 1
  let payload ← takeN len
  Parser.pure { d_type := t, data := payload }

/-- Modelled from the spec: `query::QueryStatusVar` lives in the missing
src/src/events/query.rs.  Spec section 3 describes "a closed set of
tagged sub-records keyed by a 1-byte code"; each record is kept as its
key code plus its raw payload bytes. -/
structure QueryStatusVar where
  code : Nat
  payload : Bytes
  deriving Repr, DecidableEq

/-- Modelled from the spec: `query::parse_status_var` is not under src/.
Spec section 4.4: a 1-byte key code followed by a key-specific payload —
flags2 (4 bytes), sql-mode (8 bytes), catalog name (1-byte length then
that many bytes plus a NUL), auto-increment (2+2 bytes), charset triple
(3 x u16), time zone and catalog-nz (1-byte length-prefixed), lc-time /
charset-database (2 bytes), table-map-for-update (8 bytes),
master-data-written (4 bytes), invokers (two length-prefixed strings),
updated-db-names (1-byte count then that many NUL-terminated names),
microseconds (3 bytes); a key code outside the documented set is an
`UnsupportedEnumValue` error. -/
def parse_status_var : Parser QueryStatusVar := do
  let code ← readLE 1
  let payload ←
    match code with
    | 0x00 => takeN 4
    | 0x01 => takeN 8
    | 0x02 => do
        let len ← readLE 1
        let s ← takeN (len + 1)
        Parser.pure (len :: s)
    | 0x03 => takeN 4
    | 0x04 => takeN 6
    | 0x05 => do
        let len ← readLE 1
        let s ← takeN len
        Parser.pure (len :: s)
    | 0x06 => do
        let len ← readLE 1
        let s ← takeN len
        Parser.pure (len :: s)
    | 0x07 => takeN 2
    | 0x08 => takeN 2
    | 0x09 => takeN 8
    | 0x0a => takeN 4
    | 0x0b => do
        let l1 ← readLE 1
        let s1 ← takeN l1
        let l2 ← readLE 1
        let s2 ← takeN l2
        Parser.pure ((l1 :: s1) ++ (l2 :: s2))
    | 0x0c => do
        let cnt ← readLE 1
        let names ← manyN take_till_term_string cnt
        Parser.pure (cnt :: names.flatten)
    | 0x0d => takeN 3
    | _ => perr PErr.unsupportedEnumValue
  Parser.pure { code := code, payload := payload }

/-- Modelled from the spec: `crate::mysql::ColumnTypes` is not under
src/.  Spec section 3: the table-map decoder "only looks up and stores
these codes, never interprets per-type metadata", so a column type is
kept as its raw byte code. -/
def ColumnTypes : Type := Nat

/-- Modelled from the spec: `ColumnTypes::from_u8` stores the raw code. -/
def ColumnTypes.from_u8 (b : Nat) : ColumnTypes := b

/-- src/src/events/mod.rs `Event` (lines 76-345): one variant per
supported event type, fields in source order (strings kept as bytes). -/
inductive Event where
  | Unknown (header : Header) (checksum : Nat)
  | Query (header : Header) (slave_proxy_id : Nat) (execution_time : Nat)
      (schema_length : Nat) (error_code : Nat) (status_vars_length : Nat)
      (status_vars : List QueryStatusVar) (schema : Bytes) (query : Bytes)
      (checksum : Nat)
  | Stop (header : Header)
  | Rotate (header : Header) (position : Nat) (next_binlog : Bytes)
  | IntVar (header : Header) (e_type : IntVarEventType) (value : Nat)
  | Load (header : Header) (thread_id : Nat) (execution_time : Nat)
      (skip_lines : Nat) (table_name_length : Nat) (schema_length : Nat)
      (num_fields : Nat) (field_term : Nat) (enclosed_by : Nat)
      (line_term : Nat) (line_start : Nat) (escaped_by : Nat)
      (opt_flags : OptFlags) (empty_flags : EmptyFlags)
      (field_name_lengths : Bytes) (field_names : List Bytes)
      (table_name : Bytes) (schema_name : Bytes) (file_name : Bytes)
      (checksum : Nat)
  | Slave (header : Header)
  | CreateFile (header : Header) (file_id : Nat) (block_data : Bytes)
  | AppendFile (header : Header) (file_id : Nat) (block_data : Bytes)
  | ExecLoad (header : Header) (file_id : Nat)
  | DeleteFile (header : Header) (file_id : Nat)
  | NewLoad (header : Header) (thread_id : Nat) (execution_time : Nat)
      (skip_lines : Nat) (table_name_length : Nat) (schema_length : Nat)
      (num_fields : Nat) (field_term_length : Nat) (field_term : Bytes)
      (enclosed_by_length : Nat) (enclosed_by : Bytes)
      (line_term_length : Nat) (line_term : Bytes)
      (line_start_length : Nat) (line_start : Bytes)
      (escaped_by_length : Nat) (escaped_by : Bytes) (opt_flags : OptFlags)
      (field_name_lengths : Bytes) (field_names : List Bytes)
      (table_name : Bytes) (schema_name : Bytes) (file_name : Bytes)
      (checksum : Nat)
  | Rand (header : Header) (seed1 : Nat) (seed2 : Nat)
  | UserVar (header : Header) (unknown : Bytes)
  | FormatDesc (header : Header) (binlog_version : Nat)
      (mysql_server_version : Bytes) (create_timestamp : Nat)
      (event_header_length : Nat) (supported_types : Bytes)
      (checksum_alg : Nat) (checksum : Nat)
  | XID (header : Header) (xid : Nat) (checksum : Nat)
  | BeginLoadQuery (header : Header) (file_id : Nat) (block_data : Bytes)
  | ExecuteLoadQueryEvent (header : Header) (thread_id : Nat)
      (execution_time : Nat) (schema_length : Nat) (error_code : Nat)
      (status_vars_length : Nat) (file_id : Nat) (start_pos : Nat)
      (end_pos : Nat) (dup_handling_flags : DupHandlingFlags)
  | TableMap (header : Header) (table_id : Nat) (flags : Nat)
      (schema_length : Nat) (schema : Bytes) (table_name_length : Nat)
      (table_name : Bytes) (column_count : Nat)
      (columns_type : List ColumnTypes) (column_meta_def : Bytes)
      (null_bits : Bytes) (checksum : Nat)
  | Incident (header : Header) (d_type : IncidentEventType)
      (message_length : Nat) (message : Bytes)
  | Heartbeat (header : Header)
  | RowQuery (header : Header) (length : Nat) (query_text : Bytes)
  | AnonymousGtid (header : Header) (rbr_only : Bool)
      (encoded_sig_length : Nat) (encoded_gno_length : Nat)
      (unknown : Bytes) (last_committed : Int) (sequence_number : Int)
      (checksum : Nat)
  | PreviousGtids (header : Header) (gtid_sets : Bytes) (buf_size : Nat)
      (checksum : Nat)
  | WriteRowsV2 (header : Header) (table_id : Nat) (flags : RowsFlags)
      (extra_data_len : Nat) (extra_data : List ExtraData)
      (column_count : Nat) (inserted_image_bits : Bytes) (rows : Bytes)
      (checksum : Nat)
  | UpdateRowsV2 (header : Header) (table_id : Nat) (flags : RowsFlags)
      (extra_data_len : Nat) (extra_data : List ExtraData)
      (column_count : Nat) (before_image_bits : Bytes)
      (after_image_bits : Bytes) (rows : Bytes) (checksum : Nat)
  | DeleteRowsV2 (header : Header) (table_id : Nat) (flags : RowsFlags)
      (extra_data_len : Nat) (extra_data : List ExtraData)
      (column_count : Nat) (deleted_image_bits : Bytes) (rows : Bytes)
      (checksum : Nat)

/-- mod.rs `parse_unknown` (lines 426-431). -/
def parse_unknown (header : Header) : Parser Event := do
  let checksum ← readLE 4
  Parser.pure (Event.Unknown header checksum)

/-- mod.rs `parse_query` (lines 433-478).  The status-variable region is
cut to exactly `status_vars_length` bytes and parsed with `many0`; a
non-empty remainder hits `assert_eq!(remain.len(), 0)` — a panic.  The
query-text length is the unguarded u32 subtraction of line 448-458,
which panics on underflow in debug builds. -/
def parse_query (header : Header) : Parser Event := do
  let slave_proxy_id ← readLE 4
  let execution_time ← readLE 4
  let schema_length ← readLE 1
  let error_code ← readLE 2
  let status_vars_length ← readLE 2
  let raw_vars ← takeN status_vars_length
  match many0 parse_status_var raw_vars with
  | POut.err e => perr e
  | POut.panic => ppanic
  | POut.ok status_vars remain =>
    if remain.length ≠ 0 then ppanic
    else do
      let schemaBytes ← takeN schema_length
      let _ ← takeN 1
      let qlen ← liftArith
        ((csub header.event_size 19).bind (fun a =>
          (csub a 4).bind (fun a => (csub a 4).bind (fun a =>
          (csub a 1).bind (fun a => (csub a 2).bind (fun a =>
          (csub a 2).bind (fun a => (csub a status_vars_length).bind (fun a =>
          (csub a schema_length).bind (fun a => (csub a 1).bind (fun a =>
          csub a 4))))))))))
      let queryBytes ← takeN qlen
      let checksum ← readLE 4
      Parser.pure
        (Event.Query header slave_proxy_id execution_time schema_length
          error_code status_vars_length status_vars schemaBytes
          (extract_string queryBytes) checksum)

/-- mod.rs `parse_stop` (lines 480-482). -/
def parse_stop (header : Header) : Parser Event :=
  Parser.pure (Event.Stop header)

/-- mod.rs `parse_rotate` (lines 484-498); the name length is the
unguarded u32 subtraction `event_size - 19 - 8`. -/
def parse_rotate (header : Header) : Parser Event := do
  let position ← readLE 8
  let str_len ← liftArith
    ((csub header.event_size 19).bind (fun a => csub a 8))
  let nameBytes ← takeN str_len
  Parser.pure (Event.Rotate header position (extract_n_string nameBytes str_len))

/-- mod.rs `parse_intvar` (lines 500-516): a subtype byte outside
{0, 1, 2} is `unreachable!()` — a panic. -/
def parse_intvar (header : Header) : Parser Event := do
  let t ← readLE 1
  let e_type ←
    match t with
    | 0x00 => Parser.pure IntVarEventType.InvalidIntEvent
    | 0x01 => Parser.pure IntVarEventType.LastInsertIdEvent
    | 0x02 => Parser.pure IntVarEventType.InsertIdEvent
    | _ => ppanic
  let value ← readLE 8
  Parser.pure (Event.IntVar header e_type value)

/-- The option-flags decode of `parse_load` (mod.rs lines 580-585).
Note the source extracts `opt_enclosed` with `(flags >> 1) % 1 == 1`:
a remainder modulo 1, which is always zero. -/
def loadOptFlags (flags : Nat) : OptFlags :=
  { dump_file := (flags >>> 0) % 2 == 1
    opt_enclosed := (flags >>> 1) % 1 == 1
    replace := (flags >>> 2) % 2 == 1
    ignore := (flags >>> 3) % 2 == 1 }

/-- The empty-flags decode of `parse_load` (mod.rs lines 586-592). -/
def loadEmptyFlags (flags : Nat) : EmptyFlags :=
  { field_term_empty := (flags >>> 0) % 2 == 1
    enclosed_empty := (flags >>> 1) % 2 == 1
    line_term_empty := (flags >>> 2) % 2 == 1
    line_start_empty := (flags >>> 3) % 2 == 1
    escape_empty := (flags >>> 4) % 2 == 1 }

/-- The option-flags decode of `parse_new_load` (mod.rs lines 686-691),
which extracts `opt_enclosed` with `(flags >> 1) % 2 == 1`. -/
def newLoadOptFlags (flags : Nat) : OptFlags :=
  { dump_file := (flags >>> 0) % 2 == 1
    opt_enclosed := (flags >>> 1) % 2 == 1
    replace := (flags >>> 2) % 2 == 1
    ignore := (flags >>> 3) % 2 == 1 }

/-- mod.rs `extract_many_fields` (lines 518-559).  Faithful to the
source, including: the field-name lengths are summed as a `u8` (a debug
panic when the sum reaches 256); after `take(total_len)` the running
input is re-bound to the remainder of `raw_field_names`, so the table,
schema and file names and everything after them are read from inside
that slice; `table_name_length + 1` and `schema_length + 1` are u8
additions (a debug panic at 255); and the file-name length is the
unguarded usize subtraction of lines 536-545. -/
def extract_many_fields (header : Header) (num_fields : Nat)
    (table_name_length : Nat) (schema_length : Nat) :
    Parser (Bytes × List Bytes × Bytes × Bytes × Bytes) := do
  let field_name_lengths ← takeN num_fields
  let sum8 ← liftArith
    (if field_name_lengths.sum < 256 then some field_name_lengths.sum else none)
  let total_len := sum8 + num_fields
  let raw_field_names ← takeN total_len
  fun _outside =>
    (do
      let field_names ← manyN take_till_term_string num_fields
      let tn1 ← liftArith
        (if table_name_length + 1 < 256 then some (table_name_length + 1) else none)
      let tableBytes ← takeN tn1
      let sn1 ← liftArith
        (if schema_length + 1 < 256 then some (schema_length + 1) else none)
      let schemaBytes ← takeN sn1
      let flen ← liftArith
        ((csub header.event_size 19).bind (fun a =>
          (csub a 25).bind (fun a => (csub a num_fields).bind (fun a =>
          (csub a total_len).bind (fun a =>
          (csub a table_name_length).bind (fun a =>
          (csub a schema_length).bind (fun a =>
          (csub a 3).bind (fun a => csub a 4))))))))
      let fileBytes ← takeN flen
      Parser.pure
        (field_name_lengths, field_names, extract_string tableBytes,
          extract_string schemaBytes, extract_string fileBytes))
      raw_field_names

/-- mod.rs `parse_load` (lines 561-621). -/
def parse_load (header : Header) : Parser Event := do
  let thread_id ← readLE 4
  let execution_time ← readLE 4
  let skip_lines ← readLE 4
  let table_name_length ← readLE 1
  let schema_length ← readLE 1
  let num_fields ← readLE 4
  let field_term ← readLE 1
  let enclosed_by ← readLE 1
  let line_term ← readLE 1
  let line_start ← readLE 1
  let escaped_by ← readLE 1
  let optByte ← readLE 1
  let emptyByte ← readLE 1
  let many ← extract_many_fields header num_fields table_name_length schema_length
  let checksum ← readLE 4
  Parser.pure
    (Event.Load header thread_id execution_time skip_lines table_name_length
      schema_length num_fields field_term enclosed_by line_term line_start
      escaped_by (loadOptFlags optByte) (loadEmptyFlags emptyByte)
      many.1 many.2.1 many.2.2.1 many.2.2.2.1 many.2.2.2.2 checksum)

/-- mod.rs `parse_slave` (lines 623-625). -/
def parse_slave (header : Header) : Parser Event :=
  Parser.pure (Event.Slave header)

/-- mod.rs `parse_file_data` (lines 627-633); block length is the
unguarded u32 subtraction `event_size - 19 - 4`. -/
def parse_file_data (header : Header) : Parser (Nat × Bytes) := do
  let file_id ← readLE 4
  let blen ← liftArith
    ((csub header.event_size 19).bind (fun a => csub a 4))
  let blockBytes ← takeN blen
  Parser.pure (file_id, extract_string blockBytes)

/-- mod.rs `parse_create_file` (lines 635-645). -/
def parse_create_file (header : Header) : Parser Event := do
  let fd ← parse_file_data header
  Parser.pure (Event.CreateFile header fd.1 fd.2)

/-- mod.rs `parse_append_file` (lines 647-657). -/
def parse_append_file (header : Header) : Parser Event := do
  let fd ← parse_file_data header
  Parser.pure (Event.AppendFile header fd.1 fd.2)

/-- mod.rs `parse_exec_load` (lines 659-664). -/
def parse_exec_load (header : Header) : Parser Event := do
  let file_id ← readLE 2
  Parser.pure (Event.ExecLoad header file_id)

/-- mod.rs `parse_delete_file` (lines 666-671). -/
def parse_delete_file (header : Header) : Parser Event := do
  let file_id ← readLE 2
  Parser.pure (Event.DeleteFile header file_id)

/-- mod.rs `extract_from_prev` (lines 673-676). -/
def extract_from_prev : Parser (Nat × Bytes) := do
  let len ← readLE 1
  let s ← takeN len
  Parser.pure (len, extract_n_string s len)

/-- mod.rs `parse_new_load` (lines 678-724). -/
def parse_new_load (header : Header) : Parser Event := do
  let thread_id ← readLE 4
  let execution_time ← readLE 4
  let skip_lines ← readLE 4
  let table_name_length ← readLE 1
  let schema_length ← readLE 1
  let num_fields ← readLE 4
  let ft ← extract_from_prev
  let eb ← extract_from_prev
  let lt ← extract_from_prev
  let ls ← extract_from_prev
  let es ← extract_from_prev
  let optByte ← readLE 1
  let many ← extract_many_fields header num_fields table_name_length schema_length
  let checksum ← readLE 4
  Parser.pure
    (Event.NewLoad header thread_id execution_time skip_lines
      table_name_length schema_length num_fields ft.1 ft.2 eb.1 eb.2
      lt.1 lt.2 ls.1 ls.2 es.1 es.2 (newLoadOptFlags optByte)
      many.1 many.2.1 many.2.2.1 many.2.2.2.1 many.2.2.2.2 checksum)

/-- mod.rs `parse_rand` (lines 726-736). -/
def parse_rand (header : Header) : Parser Event := do
  let seed1 ← readLE 8
  let seed2 ← readLE 8
  Parser.pure (Event.Rand header seed1 seed2)

/-- mod.rs `parse_user_var` (lines 738-741); body length is the
unguarded u32 subtraction `event_size - 19`. -/
def parse_user_var (header : Header) : Parser Event := do
  let blen ← liftArith (csub header.event_size 19)
  let unknown ← takeN blen
  Parser.pure (Event.UserVar header unknown)

/-- mod.rs `parse_format_desc` (lines 743-765); the supported-types
length is the unguarded u32 subtraction
`event_size - 19 - (2 + 50 + 4 + 1) - 1 - 4`. -/
def parse_format_desc (header : Header) : Parser Event := do
  let binlog_version ← readLE 2
  let versionBytes ← takeN 50
  let create_timestamp ← readLE 4
  let event_header_length ← readLE 1
  let num ← liftArith
    ((csub header.event_size 19).bind (fun a =>
      (csub a 57).bind (fun a => (csub a 1).bind (fun a => csub a 4))))
  let supported_types ← takeN num
  let checksum_alg ← readLE 1
  let checksum ← readLE 4
  Parser.pure
    (Event.FormatDesc header binlog_version (extract_string versionBytes)
      create_timestamp event_header_length supported_types checksum_alg
      checksum)

/-- mod.rs `parse_xid` (lines 767-777). -/
def parse_xid (header : Header) : Parser Event := do
  let xid ← readLE 8
  let checksum ← readLE 4
  Parser.pure (Event.XID header xid checksum)

/-- mod.rs `parse_begin_load_query` (lines 779-789). -/
def parse_begin_load_query (header : Header) : Parser Event := do
  let fd ← parse_file_data header
  Parser.pure (Event.BeginLoadQuery header fd.1 fd.2)

/-- mod.rs `parse_execute_load_query` (lines 791-828): a dup-handling
byte outside {0, 1, 2} is `unreachable!()` — a panic. -/
def parse_execute_load_query (header : Header) : Parser Event := do
  let thread_id ← readLE 4
  let execution_time ← readLE 4
  let schema_length ← readLE 1
  let error_code ← readLE 2
  let status_vars_length ← readLE 2
  let file_id ← readLE 4
  let start_pos ← readLE 4
  let end_pos ← readLE 4
  let d ← readLE 1
  let dup_handling_flags ←
    match d with
    | 0 => Parser.pure DupHandlingFlags.Error
    | 1 => Parser.pure DupHandlingFlags.Ignore
    | 2 => Parser.pure DupHandlingFlags.Replace
    | _ => ppanic
  Parser.pure
    (Event.ExecuteLoadQueryEvent header thread_id execution_time
      schema_length error_code status_vars_length file_id start_pos
      end_pos dup_handling_flags)

/-- mod.rs `parse_table_map` (lines 830-872).  The two name terminators
are checked with `assert_eq!(term, 0)` — a panic on mismatch. -/
def parse_table_map (header : Header) : Parser Event := do
  let idBytes ← takeN 6
  let table_id := leVal (idBytes ++ [0, 0])
  let flags ← readLE 2
  let sf ← string_fixed
  let term1 ← readLE 1
  if term1 ≠ 0 then ppanic
  else do
    let tf ← string_fixed
    let term2 ← readLE 1
    if term2 ≠ 0 then ppanic
    else do
      let cc ← lenenc_int
      let column_count := cc.2
      let typeBytes ← takeN column_count
      let mc ← lenenc_int
      let column_meta_def ← takeN mc.2
      let mask_len := (column_count + 7) / 8
      let null_bits ← takeN mask_len
      let checksum ← readLE 4
      Parser.pure
        (Event.TableMap header table_id flags sf.1 sf.2 tf.1 tf.2
          column_count (typeBytes.map ColumnTypes.from_u8) column_meta_def
          null_bits checksum)

/-- mod.rs `parse_incident` (lines 874-893): a subtype word outside
{0, 1} is `unreachable!()` — a panic. -/
def parse_incident (header : Header) : Parser Event := do
  let t ← readLE 2
  let d_type ←
    match t with
    | 0 => Parser.pure IncidentEventType.None
    | 1 => Parser.pure IncidentEventType.LostEvents
    | _ => ppanic
  let message_length ← readLE 1
  let messageBytes ← takeN message_length
  Parser.pure
    (Event.Incident header d_type message_length
      (extract_n_string messageBytes message_length))

/-- mod.rs `parse_heartbeat` (lines 895-897). -/
def parse_heartbeat (header : Header) : Parser Event :=
  Parser.pure (Event.Heartbeat header)

/-- mod.rs `parse_row_query` (lines 899-912). -/
def parse_row_query (header : Header) : Parser Event := do
  let length ← readLE 1
  let queryBytes ← takeN length
  Parser.pure
    (Event.RowQuery header length (extract_n_string queryBytes length))

/-- mod.rs `parse_anonymous_gtid` (lines 914-938); the filler length is
the unguarded u32 subtraction `event_size - 19 - (1 + 4*2 + 8*2 + 4)`. -/
def parse_anonymous_gtid (header : Header) : Parser Event := do
  let rb ← readLE 1
  let rbr_only := rb == 0
  let encoded_sig_length ← readLE 4
  let encoded_gno_length ← readLE 4
  let ulen ← liftArith
    ((csub header.event_size 19).bind (fun a => csub a 25))
  let unknown ← takeN ulen
  let last_committed ← readLEi64
  let sequence_number ← readLEi64
  let checksum ← readLE 4
  Parser.pure
    (Event.AnonymousGtid header rbr_only encoded_sig_length
      encoded_gno_length unknown last_committed sequence_number checksum)

/-- mod.rs `parse_previous_gtids` (lines 940-953); the GTID-set length
is the unguarded u32 subtraction `event_size - 19 - 4 - 4`. -/
def parse_previous_gtids (header : Header) : Parser Event := do
  let glen ← liftArith
    ((csub header.event_size 19).bind (fun a =>
      (csub a 4).bind (fun a => csub a 4)))
  let gtid_sets ← takeN glen
  let buf_size ← readLE 4
  let checksum ← readLE 4
  Parser.pure (Event.PreviousGtids header gtid_sets buf_size checksum)

/-- The flags-word decode of `parse_half_row` (mod.rs lines 963-968):
`end_of_stmt` is bit 0 set; `foreign_key_checks`, `unique_key_checks`
and `has_columns` are bits 1, 2 and 3 CLEAR (`% 2 == 0`). -/
def rowsFlags (flag : Nat) : RowsFlags :=
  { end_of_stmt := (flag >>> 0) % 2 == 1
    foreign_key_checks := (flag >>> 1) % 2 == 0
    unique_key_checks := (flag >>> 2) % 2 == 0
    has_columns := (flag >>> 3) % 2 == 0 }

/-- mod.rs `parse_half_row` (lines 955-988): the shared prefix of the
v2 row events.  `assert!(extra_data_len >= 2)` is a panic when the
declared extra-data length is below 2. -/
def parse_half_row : Parser (Nat × RowsFlags × Nat × List ExtraData × (Nat × Nat)) := do
  let idBytes ← takeN 6
  let table_id := leVal (idBytes ++ [0, 0])
  let flagWord ← readLE 2
  let flags := rowsFlags flagWord
  let extra_data_len ← readLE 2
  if extra_data_len < 2 then ppanic
  else do
    let extra_data ←
      match extra_data_len with
      | 2 => Parser.pure []
      | _ => many1 parse_extra_data
    let cc ← lenenc_int
    Parser.pure (table_id, flags, extra_data_len, extra_data, cc)

/-- The row-image byte count of `parse_write_rows_v2` and
`parse_delete_rows_v2` (mod.rs lines 996-1005 and 1032-1041):
`event_size - 19 - 6 - 2 - 2 - (extra_data_len - 2) - encode_len -
((column_count as u32 + 7) / 8) - 4`, every subtraction unguarded u32
arithmetic (`none` = debug-build underflow panic; the `column_count as
u32` cast truncates modulo 2^32, and the `+ 7` is checked u32
addition). -/
def rowsV2RemainingLen (event_size extra_data_len encode_len column_count : Nat) :
    Option Nat :=
  (if column_count % 2 ^ 32 + 7 < 2 ^ 32
    then some ((column_count % 2 ^ 32 + 7) / 8) else none).bind (fun bm =>
  (csub event_size 19).bind (fun a => (csub a 6).bind (fun a =>
  (csub a 2).bind (fun a => (csub a 2).bind (fun a =>
  (csub a (extra_data_len - 2)).bind (fun a =>
  (csub a encode_len).bind (fun a =>
  (csub a bm).bind (fun a => csub a 4))))))))

/-- Same for `parse_update_rows_v2` (mod.rs lines 1069-1078), with the
presence-bitmap width counted twice. -/
def updateRowsV2RemainingLen (event_size extra_data_len encode_len column_count : Nat) :
    Option Nat :=
  (if column_count % 2 ^ 32 + 7 < 2 ^ 32
    then some ((column_count % 2 ^ 32 + 7) / 8) else none).bind (fun bm =>
  (csub event_size 19).bind (fun a => (csub a 6).bind (fun a =>
  (csub a 2).bind (fun a => (csub a 2).bind (fun a =>
  (csub a (extra_data_len - 2)).bind (fun a =>
  (csub a encode_len).bind (fun a =>
  (csub a (bm * 2)).bind (fun a => csub a 4))))))))

/-- mod.rs `parse_write_rows_v2` (lines 990-1024).  The presence bitmap
is `(column_count + 7) / 8` bytes (u64 arithmetic, checked addition);
the row image length is `rowsV2RemainingLen`. -/
def parse_write_rows_v2 (header : Header) : Parser Event := do
  let half ← parse_half_row
  let bmLen ← liftArith
    (if half.2.2.2.2.2 + 7 < 2 ^ 64 then some ((half.2.2.2.2.2 + 7) / 8) else none)
  let inserted_image_bits ← takeN bmLen
  let rlen ← liftArith
    (rowsV2RemainingLen header.event_size half.2.2.1 half.2.2.2.2.1 half.2.2.2.2.2)
  let rows ← takeN rlen
  let checksum ← readLE 4
  Parser.pure
    (Event.WriteRowsV2 header half.1 half.2.1 half.2.2.1 half.2.2.2.1
      half.2.2.2.2.2 inserted_image_bits rows checksum)

/-- mod.rs `parse_delete_rows_v2` (lines 1026-1060). -/
def parse_delete_rows_v2 (header : Header) : Parser Event := do
  let half ← parse_half_row
  let bmLen ← liftArith
    (if half.2.2.2.2.2 + 7 < 2 ^ 64 then some ((half.2.2.2.2.2 + 7) / 8) else none)
  let deleted_image_bits ← takeN bmLen
  let rlen ← liftArith
    (rowsV2RemainingLen header.event_size half.2.2.1 half.2.2.2.2.1 half.2.2.2.2.2)
  let rows ← takeN rlen
  let checksum ← readLE 4
  Parser.pure
    (Event.DeleteRowsV2 header half.1 half.2.1 half.2.2.1 half.2.2.2.1
      half.2.2.2.2.2 deleted_image_bits rows checksum)

/-- mod.rs `parse_update_rows_v2` (lines 1062-1098): two presence
bitmaps (before and after image), bitmap width counted twice in the
row-image length. -/
def parse_update_rows_v2 (header : Header) : Parser Event := do
  let half ← parse_half_row
  let bmLen ← liftArith
    (if half.2.2.2.2.2 + 7 < 2 ^ 64 then some ((half.2.2.2.2.2 + 7) / 8) else none)
  let before_image_bits ← takeN bmLen
  let after_image_bits ← takeN bmLen
  let rlen ← liftArith
    (updateRowsV2RemainingLen header.event_size half.2.2.1 half.2.2.2.2.1 half.2.2.2.2.2)
  let rows ← takeN rlen
  let checksum ← readLE 4
  Parser.pure
    (Event.UpdateRowsV2 header half.1 half.2.1 half.2.2.1 half.2.2.2.1
      half.2.2.2.2.2 before_image_bits after_image_bits rows checksum)

/-- mod.rs `Event::parse` (lines 348-381): decode the header, then
dispatch on `header.event_type`.  The arm `0x14..=0x19 => unreachable!()`
and the catch-all `_ => unreachable!()` (covering `0x01`, `0x1c`,
`0x21` and every code above `0x23`) are panics. -/
def Event.parse : Parser Event := do
  let header ← parse_header
  match header.event_type with
  | 0x00 => parse_unknown header
  | 0x02 => parse_query header
  | 0x03 => parse_stop header
  | 0x04 => parse_rotate header
  | 0x05 => parse_intvar header
  | 0x06 => parse_load header
  | 0x07 => parse_slave header
  | 0x08 => parse_create_file header
  | 0x09 => parse_append_file header
  | 0x0a => parse_exec_load header
  | 0x0b => parse_delete_file header
  | 0x0c => parse_new_load header
  | 0x0d => parse_rand header
  | 0x0e => parse_user_var header
  | 0x0f => parse_format_desc header
  | 0x10 => parse_xid header
  | 0x11 => parse_begin_load_query header
  | 0x12 => parse_execute_load_query header
  | 0x13 => parse_table_map header
  | 0x1a => parse_incident header
  | 0x1b => parse_heartbeat header
  | 0x1d => parse_row_query header
  | 0x1e => parse_write_rows_v2 header
  | 0x1f => parse_update_rows_v2 header
  | 0x20 => parse_delete_rows_v2 header
  | 0x22 => parse_anonymous_gtid header
  | 0x23 => parse_previous_gtids header
  | _ => ppanic

theorem splitN_of_le (n : Nat) (i : Bytes) (h : n ≤ i.length) :
    splitN n i = some (i.take n, i.drop n) := by
  induction n generalizing i with
  | zero => simp [splitN]
  | succ n ih =>
    cases i with
    | nil => simp at h
    | cons b t =>
      have ht : n ≤ t.length := by simpa using h
      simp [splitN, ih t ht]

theorem readLE_ok {n : Nat} {i : Bytes} (h : n ≤ i.length) :
    readLE n i = POut.ok (leVal (i.take n)) (i.drop n) := by
  unfold readLE
  rw [splitN_of_le n i h]

theorem bind_ok {α β : Type} {p : Parser α} {f : α → Parser β} {i : Bytes}
    {b : β} {r : Bytes} (h : Parser.bind p f i = POut.ok b r) :
    ∃ a m, p i = POut.ok a m ∧ f a m = POut.ok b r := by
  unfold Parser.bind at h
  cases hp : p i with
  | ok a m => rw [hp] at h; exact ⟨a, m, rfl, h⟩
  | err e => rw [hp] at h; exact POut.noConfusion h
  | panic => rw [hp] at h; exact POut.noConfusion h

/-- Claim C1: for every valid record truncated to fewer bytes than its
declared `event_size`, the decoder and every primitive it calls is
claimed to return `InsufficientData` and never panic.  The code violates
this: `parse_lenenc_int` indexes `input[0]` unconditionally, so a
length-encoded field truncated to zero bytes (for example a table-map
or rows event cut just before its column count) panics with an
out-of-bounds index instead of returning `InsufficientData`.  Other
truncation points do behave as claimed: a `0xfe`-prefixed length field
cut mid-payload, a record cut inside the 19-byte header, and an XID
record cut inside its 8-byte id all yield `InsufficientData`. -/
theorem C1_truncated_lenenc_panics :
    parse_lenenc_int [] = POut.panic ∧
    parse_lenenc_int [0xfe] = POut.err PErr.insufficientData ∧
    Event.parse [0, 0, 0] = POut.err PErr.insufficientData ∧
    Event.parse ([0,0,0,0, 0x10, 0,0,0,0, 31,0,0,0, 0,0,0,0, 0,0] ++
      [11, 0, 0, 0, 0, 0]) = POut.err PErr.insufficientData := by
  refine ⟨rfl, rfl, rfl, rfl⟩

/-- Claim C2: event-type codes `0x01`, `0x14`-`0x19` and codes above the
recognized maximum are claimed to yield `UnsupportedEventType` and never
an unconditional failure path.  The code violates this: `Event::parse`
sends `0x14..=0x19` and the catch-all arm (covering `0x01` and every
code above `0x23`) to `unreachable!()`, a panic, regardless of what
follows the header. -/
theorem C2_unsupported_event_type_panics :
    (∀ r : Bytes, Event.parse ([0,0,0,0, 0x01, 0,0,0,0, 19,0,0,0, 0,0,0,0, 0,0] ++ r) = POut.panic) ∧
    (∀ r : Bytes, Event.parse ([0,0,0,0, 0x14, 0,0,0,0, 19,0,0,0, 0,0,0,0, 0,0] ++ r) = POut.panic) ∧
    (∀ r : Bytes, Event.parse ([0,0,0,0, 0x19, 0,0,0,0, 19,0,0,0, 0,0,0,0, 0,0] ++ r) = POut.panic) ∧
    (∀ r : Bytes, Event.parse ([0,0,0,0, 0x24, 0,0,0,0, 19,0,0,0, 0,0,0,0, 0,0] ++ r) = POut.panic) := by
  refine ⟨fun r => rfl, fun r => rfl, fun r => rfl, fun r => rfl⟩

/-- Claim C3: an input whose first byte is `0xff` is claimed to make
`parse_lenenc_int` fail with `MalformedLength` rather than panic.  The
code violates this: the `0xff` arm is `unreachable!()`, a panic, for
every buffer starting with `0xff`. -/
theorem C3_lenenc_0xff_panics :
    ∀ r : Bytes, parse_lenenc_int (0xff :: r) = POut.panic := by
  intro r; rfl

/-- Claim C4: the row-image length of the v2 rows decoders is
`event_size - 19 - 6 - 2 - 2 - (extra_data_len - 2) -
lenenc_length_of(column_count) - bitmap_bytes - 4` (which the code does
compute, embedded here as `rowsV2RemainingLen` and
`updateRowsV2RemainingLen`), claimed to be validated as non-negative
with `MalformedLength` on underflow.  The code violates the validation
part: the subtraction is unguarded u32 arithmetic, so a write-rows or
update-rows record whose header declares `event_size = 19` panics on
underflow (debug builds) instead of returning `MalformedLength`. -/
theorem C4_rows_v2_length_underflow_panics :
    rowsV2RemainingLen 19 2 1 1 = none ∧
    updateRowsV2RemainingLen 19 2 1 1 = none ∧
    (∀ r : Bytes, Event.parse ([0,0,0,0, 0x1e, 0,0,0,0, 19,0,0,0, 0,0,0,0, 0,0] ++
      [0,0,0,0,0,0, 1,0, 2,0, 1, 0] ++ r) = POut.panic) ∧
    (∀ r : Bytes, Event.parse ([0,0,0,0, 0x1f, 0,0,0,0, 19,0,0,0, 0,0,0,0, 0,0] ++
      [0,0,0,0,0,0, 1,0, 2,0, 1, 0, 0] ++ r) = POut.panic) := by
  refine ⟨rfl, rfl, fun r => rfl, fun r => rfl⟩

/-- Claim C5: the int-var subtype outside {0,1,2}, the execute-load-query
dup-handling code outside {0,1,2} and the incident subtype outside {0,1}
are claimed to yield `UnsupportedEnumValue`.  The code violates this:
each of the three match arms is `unreachable!()`, a panic —
demonstrated on an int-var record with subtype 3, an execute-load-query
record with dup-handling code 3, and an incident record with subtype
word 2. -/
theorem C5_enum_values_panic :
    (∀ r : Bytes, Event.parse ([0,0,0,0, 0x05, 0,0,0,0, 28,0,0,0, 0,0,0,0, 0,0] ++
      [3] ++ r) = POut.panic) ∧
    (∀ r : Bytes, Event.parse ([0,0,0,0, 0x12, 0,0,0,0, 45,0,0,0, 0,0,0,0, 0,0] ++
      [0,0,0,0, 0,0,0,0, 0, 0,0, 0,0, 0,0,0,0, 0,0,0,0, 0,0,0,0, 3] ++ r) = POut.panic) ∧
    (∀ r : Bytes, Event.parse ([0,0,0,0, 0x1a, 0,0,0,0, 22,0,0,0, 0,0,0,0, 0,0] ++
      [2, 0] ++ r) = POut.panic) := by
  refine ⟨fun r => rfl, fun r => rfl, fun r => rfl⟩

/-- The header decoded from the C6 counterexample input: 19 bytes whose
`event_size` field encodes 5. -/
def hdr6 : Header :=
  { timestamp := 0, event_type := 0, server_id := 0, event_size := 5,
    log_pos := 0, flags := eventFlagOfWord 0 }

/-- Claim C6 counterexample: the claim says `parse_header` succeeds only
when the declared total size is at least 19; here it succeeds on a
19-byte input whose `event_size` field encodes 5 (< 19), so decoding
does not enforce the invariant. -/
theorem C6_counterexample :
    parse_header [0,0,0,0, 0, 0,0,0,0, 5,0,0,0, 0,0,0,0, 0,0] =
      POut.ok hdr6 [] ∧ hdr6.event_size < 19 := by
  refine ⟨rfl, by decide⟩

/-- Claim C6 as amended: `parse_header` performs no validation of
`event_size`; it succeeds on every input with at least 19 bytes, copying
each field verbatim from its fixed offset (`event_size` from bytes
9..12, little-endian), so `event_size ≥ 19` holds only when the input
bytes happen to encode such a value. -/
theorem C6_header_parse_unvalidated (i : Bytes) (hlen : 19 ≤ i.length) :
    parse_header i = POut.ok
      { timestamp := leVal (i.take 4)
        event_type := leVal ((i.drop 4).take 1)
        server_id := leVal ((i.drop 5).take 4)
        event_size := leVal ((i.drop 9).take 4)
        log_pos := leVal ((i.drop 13).take 4)
        flags := eventFlagOfWord (leVal ((i.drop 17).take 2)) } (i.drop 19) := by
  unfold parse_header
  simp only [bind_def, Parser.bind]
  rw [readLE_ok (n := 4) (by omega)]
  dsimp only
  rw [readLE_ok (n := 1) (by simp; omega)]
  dsimp only
  rw [readLE_ok (n := 4) (by simp; omega)]
  dsimp only
  rw [readLE_ok (n := 4) (by simp; omega)]
  dsimp only
  rw [readLE_ok (n := 4) (by simp; omega)]
  dsimp only
  rw [readLE_ok (n := 2) (by simp; omega)]
  dsimp only
  simp [List.drop_drop, Parser.pure]

/-- The header decoded from the C6 witness input: 19 bytes whose
`event_size` field encodes 7. -/
def hdr6w : Header :=
  { timestamp := 0, event_type := 0, server_id := 0, event_size := 7,
    log_pos := 0, flags := eventFlagOfWord 0 }

/-- Witness for `C6_header_parse_unvalidated` at a concrete 19-byte
input whose `event_size` bytes encode 7: header decoding succeeds with
`event_size = 7 < 19`. -/
theorem C6_header_parse_unvalidated_witness :
    parse_header [0,0,0,0, 0, 0,0,0,0, 7,0,0,0, 0,0,0,0, 0,0] =
      POut.ok hdr6w [] :=
  C6_header_parse_unvalidated [0,0,0,0, 0, 0,0,0,0, 7,0,0,0, 0,0,0,0, 0,0]
    (by decide)

/-- Claim C7: the query status-variable region of exactly
`status_vars_length` bytes must be fully consumed, with a non-zero
remainder producing `InvariantViolation` rather than a crash.  The
fully-consumed success path does hold (first conjunct: a region holding
one complete flags2 variable decodes and the query event succeeds), but
the code violates the error part: a non-zero remainder (here a 1-byte
region holding the unrecognized key `0xAA`) hits
`assert_eq!(remain.len(), 0)` — a panic, not an error result. -/
theorem C7_status_vars_remainder_panics :
    Event.parse ([0,0,0,0, 0x02, 0,0,0,0, 44,0,0,0, 0,0,0,0, 0,0] ++
      [0,0,0,0, 0,0,0,0, 0, 0,0, 5,0, 0,1,2,3,4, 0, 65,66, 1,0,0,0]) =
      POut.ok
        (Event.Query
          { timestamp := 0, event_type := 2, server_id := 0, event_size := 44,
            log_pos := 0, flags := eventFlagOfWord 0 }
          0 0 0 0 5 [{ code := 0, payload := [1, 2, 3, 4] }] [] [65, 66] 1) [] ∧
    (∀ r : Bytes, Event.parse ([0,0,0,0, 0x02, 0,0,0,0, 0,0,0,0, 0,0,0,0, 0,0] ++
      [0,0,0,0, 0,0,0,0, 0, 0,0, 1,0, 0xAA] ++ r) = POut.panic) := by
  refine ⟨rfl, fun r => rfl⟩

/-- Number of the four row-flag booleans that decode to `true` when the
wire word is 0, i.e. the number of fields with inverted polarity
(bit value 0 means "enabled"). -/
def rowsInvertedCount : Nat :=
  (if (rowsFlags 0).end_of_stmt then 1 else 0) +
  (if (rowsFlags 0).foreign_key_checks then 1 else 0) +
  (if (rowsFlags 0).unique_key_checks then 1 else 0) +
  (if (rowsFlags 0).has_columns then 1 else 0)

/-- Claim C8 counterexample: the claim says exactly two of the four
row-flag booleans use inverted polarity; decoding the all-zero flags
word yields `true` for three of them (`foreign_key_checks`,
`unique_key_checks`, `has_columns`), so three fields, not two, are
inverted. -/
theorem C8_counterexample :
    rowsFlags 0 =
      { end_of_stmt := false, foreign_key_checks := true,
        unique_key_checks := true, has_columns := true } ∧
    rowsInvertedCount = 3 := by
  refine ⟨rfl, rfl⟩

/-- Claim C8 as amended: the row-event flags word decodes into exactly 4
independent booleans from the little-endian u16 — `end_of_stmt` is bit 0
set, and `foreign_key_checks`, `unique_key_checks` and `has_columns` are
bits 1, 2 and 3 CLEAR — so exactly three of the four use inverted
polarity.  On the write-rows body of the source's own regression test
(flags word 0x0001), `parse_half_row` returns all four booleans true,
as that test asserts. -/
theorem C8_rows_flags_three_inverted :
    (∀ f : Nat,
      (rowsFlags f).end_of_stmt = ((f >>> 0) % 2 == 1) ∧
      (rowsFlags f).foreign_key_checks = ((f >>> 1) % 2 == 0) ∧
      (rowsFlags f).unique_key_checks = ((f >>> 2) % 2 == 0) ∧
      (rowsFlags f).has_columns = ((f >>> 3) % 2 == 0)) ∧
    rowsInvertedCount = 3 ∧
    parse_half_row [109,0,0,0,0,0, 1,0, 2,0, 4, 255, 240, 1,0,0,0, 2,0,
        120,100, 2, 103,115, 226,200,15,201, 254,227,34] =
      POut.ok (109,
        { end_of_stmt := true, foreign_key_checks := true,
          unique_key_checks := true, has_columns := true },
        2, [], (1, 4))
        [255, 240, 1,0,0,0, 2,0, 120,100, 2, 103,115, 226,200,15,201, 254,227,34] := by
  refine ⟨fun f => ⟨rfl, rfl, rfl, rfl⟩, rfl, rfl⟩

/-- Claim C9: the length-encoded integer boundary law — `[0x05]` decodes
to 5 consuming 1 byte, `[0xfb,0x00,0x01]` to 256 consuming 3,
`[0xfd,0x01,0x00,0x00]` to 1 consuming 4, and `0xfe` followed by 8 bytes
to the 8-byte little-endian value consuming 9 — each stated for an
arbitrary suffix, so the unconsumed remainder is exactly the claimed
suffix.  Confirmed of `parse_lenenc_int`. -/
theorem C9_lenenc_boundary_law :
    (∀ r : Bytes, parse_lenenc_int (0x05 :: r) = POut.ok 5 r) ∧
    (∀ r : Bytes, parse_lenenc_int (0xfb :: 0x00 :: 0x01 :: r) = POut.ok 256 r) ∧
    (∀ r : Bytes, parse_lenenc_int (0xfd :: 0x01 :: 0x00 :: 0x00 :: r) = POut.ok 1 r) ∧
    (∀ (b0 b1 b2 b3 b4 b5 b6 b7 : Nat) (r : Bytes),
      parse_lenenc_int (0xfe :: b0 :: b1 :: b2 :: b3 :: b4 :: b5 :: b6 :: b7 :: r) =
        POut.ok (b0 + 256 * b1 + 256 ^ 2 * b2 + 256 ^ 3 * b3 + 256 ^ 4 * b4 +
          256 ^ 5 * b5 + 256 ^ 6 * b6 + 256 ^ 7 * b7) r) := by
  refine ⟨fun r => rfl, fun r => rfl, fun r => rfl, ?_⟩
  intro b0 b1 b2 b3 b4 b5 b6 b7 r
  simp [parse_lenenc_int, Parser.bind, takeN, readLE, splitN, leVal]
  ring

/-- The `opt_enclosed` option flag of a decoded Load or NewLoad event. -/
def eventOptEnclosed : Event → Option Bool
  | Event.Load _ _ _ _ _ _ _ _ _ _ _ _ o _ _ _ _ _ _ _ => some o.opt_enclosed
  | Event.NewLoad _ _ _ _ _ _ _ _ _ _ _ _ _ _ _ _ _ o _ _ _ _ _ _ => some o.opt_enclosed
  | _ => none

/-- Claim C10: `parse_load` extracts `opt_enclosed` with
`(flags >> 1) % 1`, a remainder modulo 1, which is always 0 — so every
successfully decoded Load event has `opt_enclosed = false` regardless of
the option-flags byte — whereas `parse_new_load` uses `(flags >> 1) % 2`
and so does depend on bit 1 of its input (true for flags byte 2, false
for flags byte 0).  Confirmed. -/
theorem C10_load_opt_enclosed_constant :
    (∀ (hdr : Header) (i : Bytes) (e : Event) (r : Bytes),
      parse_load hdr i = POut.ok e r → eventOptEnclosed e = some false) ∧
    (∀ f : Nat, (loadOptFlags f).opt_enclosed = false) ∧
    (newLoadOptFlags 2).opt_enclosed = true ∧
    (newLoadOptFlags 0).opt_enclosed = false := by
  refine ⟨?_, ?_, rfl, rfl⟩
  · intro hdr i e r h
    unfold parse_load at h
    simp only [bind_def] at h
    obtain ⟨a1, m1, h1, h⟩ := bind_ok h
    obtain ⟨a2, m2, h2, h⟩ := bind_ok h
    obtain ⟨a3, m3, h3, h⟩ := bind_ok h
    obtain ⟨a4, m4, h4, h⟩ := bind_ok h
    obtain ⟨a5, m5, h5, h⟩ := bind_ok h
    obtain ⟨a6, m6, h6, h⟩ := bind_ok h
    obtain ⟨a7, m7, h7, h⟩ := bind_ok h
    obtain ⟨a8, m8, h8, h⟩ := bind_ok h
    obtain ⟨a9, m9, h9, h⟩ := bind_ok h
    obtain ⟨a10, m10, h10, h⟩ := bind_ok h
    obtain ⟨a11, m11, h11, h⟩ := bind_ok h
    obtain ⟨a12, m12, h12, h⟩ := bind_ok h
    obtain ⟨a13, m13, h13, h⟩ := bind_ok h
    obtain ⟨a14, m14, h14, h⟩ := bind_ok h
    obtain ⟨a15, m15, h15, h⟩ := bind_ok h
    unfold Parser.pure at h
    injection h with he hr
    subst he
    simp [eventOptEnclosed, loadOptFlags, Nat.mod_one]
  · intro f
    simp [loadOptFlags, Nat.mod_one]

/-- The header of the C10 witness record: a Load event (type 6) of
declared size 63. -/
def hdrL10 : Header :=
  { timestamp := 0, event_type := 6, server_id := 0, event_size := 63,
    log_pos := 0, flags := eventFlagOfWord 0 }

/-- The body of the C10 witness record: option-flags byte 2 (bit 1 set),
one declared field whose name list leaves slack for the
remainder-rebinding behaviour of `extract_many_fields`. -/
def inL10 : Bytes :=
  [0,0,0,0, 0,0,0,0, 0,0,0,0, 0, 0, 1,0,0,0, 0,0,0,0,0, 2, 0,
    10, 0, 9, 9, 1, 2, 3, 4, 9, 9, 9, 9]

/-- The Load event decoded from the C10 witness record. -/
def evL10 : Event :=
  Event.Load hdrL10 0 0 0 0 0 1 0 0 0 0 0 (loadOptFlags 2) (loadEmptyFlags 0)
    [10] [[]] [9] [9] [] 67305985

/-- Witness for `C10_load_opt_enclosed_constant`: a concrete successful
`parse_load` run whose option-flags byte has bit 1 set still decodes
`opt_enclosed = false`. -/
theorem C10_load_opt_enclosed_witness :
    eventOptEnclosed evL10 = some false :=
  C10_load_opt_enclosed_constant.1 hdrL10 inL10 evL10 [9, 9, 9, 9] rfl
